import Mathlib

/-!
Verification of the Heritage Shops forecasting-and-reorder engine.

The definitions below are a shallow embedding of the two Python source
files of the repository:

* `src/app.py` — exclusion-rule evaluator (`get_exclusion_reason`),
  velocity classification (`classify_velocity`) and the per-item body of
  the reorder loop (`build_reorder`);
* `src/advanced_forecasting.py` — the four forecasting methods, the
  ensemble combiner (`EnsembleForecaster.forecast`) and the confidence
  scorer (`HeritageShopsForecaster._calculate_confidence`).

Python floats are idealised as exact rationals (`ℚ`); `np.std`, which
needs a square root, is idealised over the reals.  The module-level
constants `CURRENT_YEAR = datetime.now().year` and
`CURRENT_MONTH = datetime.now().month` are threaded through as explicit
parameters `cy`, `cm`.  Exclusion-reason strings produced by Python
f-strings are represented by constructors of `ExclusionReason` carrying
the interpolated data.
-/

/-! ## String primitives (Python `str.lower`, `in`, and `re.search`) -/

/-- Python `desc.lower()` (ASCII case folding, which covers every keyword
in the rule tables). -/
def lowerStr (s : String) : String := ⟨s.data.map Char.toLower⟩

/-- List-level prefix test used to implement the substring test. -/
def isPrefixList : List Char → List Char → Bool
  | [], _ => true
  | _ :: _, [] => false
  | a :: as, b :: bs => a = b && isPrefixList as bs

/-- Does `needle` occur as a contiguous sublist of the second argument? -/
def containsList (needle : List Char) : List Char → Bool
  | [] => isPrefixList needle []
  | c :: cs => isPrefixList needle (c :: cs) || containsList needle cs

/-- Python `needle in hay` substring test on strings. -/
def strContains (hay needle : String) : Bool := containsList needle.data hay.data

/-- Python regex word character (`\w`): letters, digits, underscore. -/
def isWordChar (c : Char) : Bool := c.isAlphanum || c = '_'

/-- Numeric value of a decimal digit character. -/
def digitVal (c : Char) : Nat := c.toNat - 48

/-- Scanner for `re.search(r"\b(20\d{2})\b", desc)`: leftmost occurrence of
`20` followed by two digits, delimited by word boundaries.  `prev` is the
character just before the current position (`none` at the start). -/
def findYearAux : Option Char → List Char → Option Nat
  | prev, c1 :: c2 :: c3 :: c4 :: rest =>
      if (prev.all fun p => !isWordChar p) && c1 = '2' && c2 = '0' && c3.isDigit
          && c4.isDigit && (rest.head?.all fun n => !isWordChar n) then
        some (2000 + 10 * digitVal c3 + digitVal c4)
      else
        findYearAux (some c1) (c2 :: c3 :: c4 :: rest)
  | _, _ => none

/-- Year extracted by `re.search(r"\b(20\d{2})\b", desc)`, if any. -/
def findYear (s : String) : Option Nat := findYearAux none s.data

/-! ## Exclusion rule evaluator (`src/app.py`, `get_exclusion_reason`) -/

/-- Built-in keyword exclusion list `EXCLUDE_KEYWORDS` of `src/app.py`. -/
def EXCLUDE_KEYWORDS : List String :=
  ["shipping charges", "environmental charge", "gift card",
   "gift certificate", "poster tube", "st-receive",
   "clearance", "discontinued", "out of print"]

/-- Dated-item keyword list `DATED_KEYWORDS` of `src/app.py`. -/
def DATED_KEYWORDS : List String := ["calendar", "planner", "diary", "agenda", "almanac"]

/-- The distinct return values of `get_exclusion_reason`, with the data
interpolated into the Python f-strings carried as constructor fields. -/
inductive ExclusionReason where
  /-- Python string `Manually excluded`. -/
  | manual : ExclusionReason
  /-- Python f-string `Service/excluded keyword: {kw}`. -/
  | serviceKeyword (kw : String) : ExclusionReason
  /-- Python f-string `Dated item ({item_year} < {CURRENT_YEAR})`. -/
  | datedItem (itemYear currentYear : Nat) : ExclusionReason
  /-- Python f-string `Calendar {item_year} - season passed`. -/
  | seasonPassed (itemYear : Nat) : ExclusionReason
  /-- Python f-string `Negative margin ({margin}%)`. -/
  | negativeMargin (margin : ℚ) : ExclusionReason
  /-- Python string `Zero sales - dead stock`. -/
  | zeroSales : ExclusionReason
deriving DecidableEq, Repr

/-- The keyword loop of `get_exclusion_reason`:
`for kw in (custom_kw + EXCLUDE_KEYWORDS): if kw.lower() in desc_lower: return ...`.
Returns the first keyword of the list whose lowercasing occurs in the
lowercased description. -/
def kwLoop (descLower : String) : List String → Option String
  | [] => none
  | kw :: rest =>
      if strContains descLower (lowerStr kw) then some kw else kwLoop descLower rest

/-- The dated-item loop of `get_exclusion_reason`:
`for kw in DATED_KEYWORDS:` with the nested year checks; an iteration
whose checks all fail falls through to the next keyword, and falling out
of the loop yields no reason from this rule. -/
def datedLoop (descLower desc : String) (cy cm : Nat) : List String → Option ExclusionReason
  | [] => none
  | kw :: rest =>
      if strContains descLower kw then
        match findYear desc with
        | some y =>
            if y < cy then some (.datedItem y cy)
            else if y = cy ∧ 3 < cm then some (.seasonPassed y)
            else datedLoop descLower desc cy cm rest
        | none => datedLoop descLower desc cy cm rest
      else datedLoop descLower desc cy cm rest

/-- Shallow embedding of `get_exclusion_reason(desc, item_num, margin, sold,
custom_kw, custom_items)` from `src/app.py`, with the globals
`CURRENT_YEAR`, `CURRENT_MONTH` passed as `cy`, `cm`. -/
def get_exclusion_reason (desc itemNum : String) (margin : ℚ) (sold : ℤ)
    (customKw customItems : List String) (cy cm : Nat) : Option ExclusionReason :=
  let descLower := lowerStr desc
  if itemNum ∈ customItems then some .manual
  else
    match kwLoop descLower (customKw ++ EXCLUDE_KEYWORDS) with
    | some kw => some (.serviceKeyword kw)
    | none =>
        match datedLoop descLower desc cy cm DATED_KEYWORDS with
        | some r => some r
        | none =>
            if margin < 0 then some (.negativeMargin margin)
            else if sold = 0 then some .zeroSales
            else none

/-! ## Velocity classification and reorder engine (`src/app.py`) -/

/-- Shallow embedding of `classify_velocity(sold, actual_weeks)`:
`weekly = sold / max(actual_weeks, 1)` followed by the threshold chain. -/
def classify_velocity (sold : ℤ) (actualWeeks : ℚ) : String :=
  let weekly : ℚ := (sold : ℚ) / max actualWeeks 1
  if 2 ≤ weekly then "🔥 Fast"
  else if 1/2 ≤ weekly then "⚡ Medium"
  else if 0 < weekly then "🐢 Slow"
  else "💀 Dead"

/-- Python `round` on an exact rational: round half to even. -/
def pythonRound (q : ℚ) : ℤ :=
  let f := Int.floor q
  let r := q - f
  if r < 1/2 then f
  else if 1/2 < r then f + 1
  else if 2 ∣ f then f else f + 1

/-- Line `avg_weekly = sold / max(actual_weeks, 1.0)` of `build_reorder`. -/
def avg_weekly (sold : ℤ) (actualWeeks : ℚ) : ℚ := (sold : ℚ) / max actualWeeks 1

/-- Line `forecast = avg_weekly * reorder_weeks * seasonal * cruise_mult`. -/
def forecast_qty (sold : ℤ) (actualWeeks reorderWeeks seasonal cruiseMult : ℚ) : ℚ :=
  avg_weekly sold actualWeeks * reorderWeeks * seasonal * cruiseMult

/-- Line `safety = forecast * (safety_pct / 100)`. -/
def safety_stock (forecast safetyPct : ℚ) : ℚ := forecast * (safetyPct / 100)

/-- Line `suggested = max(1, round(forecast + safety))`. -/
def suggested_order (forecast safetyPct : ℚ) : ℤ :=
  max 1 (pythonRound (forecast + safety_stock forecast safetyPct))

/-- The priority if/elif chain of the reorder loop with its hardcoded
thresholds `8` and `3`. -/
def priority_of (reason : Option ExclusionReason) (suggested : ℤ) : String :=
  if reason.isSome then "❌ EXCLUDED"
  else if 8 ≤ suggested then "🚨 URGENT"
  else if 3 ≤ suggested then "⚠️ WARNING"
  else "✅ OK"

/-- The fields of the per-item output row of `build_reorder` that the
claims are about. -/
structure ReorderRow where
  priority : String
  velocity : String
  avgWeekly : ℚ
  forecastQty : ℚ
  suggestedOrder : ℤ
  exclusionReason : Option ExclusionReason
deriving DecidableEq, Repr

/-- One iteration of the `for _, r in df.iterrows()` loop of
`build_reorder`, parametrised over the velocity classifier (the source
calls the global `classify_velocity`; the parametrisation makes the
noninterference claim expressible).  `seasonal` and `cruiseMult` are the
loop-invariant values computed before the loop from the seasonal table
and the cruise schedule. -/
def buildRowWith (classify : ℤ → ℚ → String) (desc itemNum : String) (margin : ℚ)
    (sold : ℤ) (customKw customItems : List String) (actualWeeks reorderWeeks
    safetyPct seasonal cruiseMult : ℚ) (cy cm : Nat) : ReorderRow :=
  { priority := priority_of (get_exclusion_reason desc itemNum margin sold customKw customItems cy cm)
      (suggested_order (forecast_qty sold actualWeeks reorderWeeks seasonal cruiseMult) safetyPct)
    velocity := classify sold actualWeeks
    avgWeekly := avg_weekly sold actualWeeks
    forecastQty := forecast_qty sold actualWeeks reorderWeeks seasonal cruiseMult
    suggestedOrder := suggested_order (forecast_qty sold actualWeeks reorderWeeks seasonal cruiseMult) safetyPct
    exclusionReason := get_exclusion_reason desc itemNum margin sold customKw customItems cy cm }

/-- The loop body as the source runs it, with the global `classify_velocity`. -/
def build_reorder_row (desc itemNum : String) (margin : ℚ) (sold : ℤ)
    (customKw customItems : List String)
    (actualWeeks reorderWeeks safetyPct seasonal cruiseMult : ℚ) (cy cm : Nat) : ReorderRow :=
  buildRowWith classify_velocity desc itemNum margin sold customKw customItems
    actualWeeks reorderWeeks safetyPct seasonal cruiseMult cy cm

/-- The `SEASONAL_INDEX` table of `src/app.py` as a partial month map. -/
def SEASONAL_INDEX (m : Nat) : Option ℚ :=
  if m = 1 then some 0.35 else if m = 2 then some 0.35 else if m = 3 then some 0.40
  else if m = 4 then some 0.55 else if m = 5 then some 0.75 else if m = 6 then some 1.20
  else if m = 7 then some 2.50 else if m = 8 then some 2.40 else if m = 9 then some 1.50
  else if m = 10 then some 0.90 else if m = 11 then some 0.55 else if m = 12 then some 0.80
  else none

/-- Line `seasonal = SEASONAL_INDEX.get(next_month, 1.0)` with
`next_month = (CURRENT_MONTH % 12) + 1`. -/
def seasonal_next (cm : Nat) : ℚ := (SEASONAL_INDEX ((cm % 12) + 1)).getD 1

/-- The cruise-passenger banding of `build_reorder`. -/
def cruise_mult (pax : ℤ) : ℚ :=
  if 5000 < pax then 1.35 else if 2000 < pax then 1.20 else if 0 < pax then 1.10 else 1

/-! ## Forecast methods (`src/advanced_forecasting.py`) -/

/-- Idealisation of `np.mean` over exact rationals.  (On the empty list
numpy yields NaN; here Lean's total division makes the value `0`.  No
theorem below depends on the empty-list value except through this very
definition.) -/
def npMean (xs : List ℚ) : ℚ := xs.sum / xs.length

/-- Python slice `xs[-w:]` for `w ≤ len xs`: the last `w` elements. -/
def lastN (w : Nat) (xs : List ℚ) : List ℚ := xs.drop (xs.length - w)

/-- `MovingAverageForecaster.forecast` with window `w`
(`periods_ahead` is accepted and ignored, as in the source). -/
def sma_forecast (w : Nat) (hist : List ℚ) (_periodsAhead : Nat) : ℚ :=
  if hist.length < w then npMean hist
  else npMean (lastN w hist)

/-- `WeightedMovingAverageForecaster.forecast` with window `w`:
weights `1, …, len(recent)` over the last `w` values, most recent
heaviest; `np.average` divides the weighted sum by the weight total. -/
def wma_forecast (w : Nat) (hist : List ℚ) (_periodsAhead : Nat) : ℚ :=
  if hist.length < w then npMean hist
  else
    let recent := lastN w hist
    let weights := (List.range recent.length).map fun i => ((i + 1 : Nat) : ℚ)
    (List.zipWith (· * ·) weights recent).sum / weights.sum

/-- `ExponentialSmoothingForecaster.forecast`: `0` on empty history,
otherwise fold `smoothed = α·v + (1-α)·smoothed` over the tail starting
from the head.  (The source's explicit length-1 branch returns the single
element, which coincides with the fold over an empty tail.) -/
def exp_smooth_forecast (α : ℚ) (hist : List ℚ) (_periodsAhead : Nat) : ℚ :=
  match hist with
  | [] => 0
  | x :: rest => rest.foldl (fun s v => α * v + (1 - α) * s) x

/-- One `for sale in historical_sales[1:]` step of Holt's method on the
`(level, trend)` state. -/
def holtStep (α β : ℚ) (lt : ℚ × ℚ) (v : ℚ) : ℚ × ℚ :=
  (α * v + (1 - α) * (lt.1 + lt.2),
   β * ((α * v + (1 - α) * (lt.1 + lt.2)) - lt.1) + (1 - β) * lt.2)

/-- `HoltLinearTrendForecaster.forecast`: mean (or 0) for histories
shorter than 2; otherwise level/trend recursion over `hist[1:]` and the
clamped forecast `max(0, level + periods_ahead·trend)`. -/
def holt_forecast (α β : ℚ) (hist : List ℚ) (periodsAhead : Nat) : ℚ :=
  match hist with
  | [] => 0
  | [x] => npMean [x]
  | x1 :: x2 :: rest =>
      let s := (x2 :: rest).foldl (holtStep α β) (x1, x2 - x1)
      max 0 (s.1 + (periodsAhead : ℚ) * s.2)

/-! ## Ensemble combiner (`EnsembleForecaster.forecast`) -/

/-- A row of the velocity-keyed weight table. -/
structure Weights where
  sma : ℚ
  wma : ℚ
  exp_smooth : ℚ
  holt : ℚ
deriving DecidableEq, Repr

/-- The weight-selection if/elif/else of `EnsembleForecaster.forecast`:
unmatched categories fall to the slow-mover row. -/
def weightsFor (cat : String) : Weights :=
  if cat = "Fast Mover" then ⟨0.15, 0.30, 0.35, 0.20⟩
  else if cat = "Medium Mover" then ⟨0.25, 0.25, 0.25, 0.25⟩
  else ⟨0.40, 0.30, 0.20, 0.10⟩

/-- The dictionary returned by `EnsembleForecaster.forecast`. -/
structure ForecastResult where
  sma : ℚ
  wma : ℚ
  exp_smooth : ℚ
  holt : ℚ
  ensemble : ℚ
  recommended : ℚ
deriving DecidableEq, Repr

/-- Shallow embedding of `EnsembleForecaster.forecast`: the four methods
are instantiated as in `EnsembleForecaster.__init__` (windows 3,
`α = 0.3`, Holt `α = 0.3`, `β = 0.1`), blended with the selected row. -/
def ensemble_forecast (hist : List ℚ) (cat : String) (periodsAhead : Nat) : ForecastResult :=
  let s := sma_forecast 3 hist periodsAhead
  let w := wma_forecast 3 hist periodsAhead
  let e := exp_smooth_forecast 0.3 hist periodsAhead
  let h := holt_forecast 0.3 0.1 hist periodsAhead
  let wt := weightsFor cat
  let ens := s * wt.sma + w * wt.wma + e * wt.exp_smooth + h * wt.holt
  ⟨s, w, e, h, ens, ens⟩

/-! ## Confidence scorer (`HeritageShopsForecaster._calculate_confidence`) -/

/-- Population variance, the square of `np.std`. -/
def npVariance (xs : List ℚ) : ℚ :=
  ((xs.map fun x => (x - npMean xs) ^ 2).sum) / xs.length

/-- Idealisation of `np.std` (population standard deviation) over ℝ. -/
noncomputable def npStd (xs : List ℚ) : ℝ := Real.sqrt ((npVariance xs : ℚ) : ℝ)

/-- The `velocity_scores` dictionary lookup with default 15. -/
def velocity_score (cat : String) : ℚ :=
  if cat = "Fast Mover" then 30
  else if cat = "Medium Mover" then 25
  else if cat = "Slow Mover" then 15
  else if cat = "Very Slow" then 10
  else 15

/-- Shallow embedding of `_calculate_confidence(sales_history,
velocity_category)`; real-valued because `np.std` takes a square root. -/
noncomputable def calculate_confidence (hist : List ℚ) (cat : String) : ℝ :=
  if hist.length < 3 then 50
  else
    let dataScore : ℝ := min ((hist.length : ℝ) / 12 * 40) 40
    let velocityScore : ℝ := ((velocity_score cat : ℚ) : ℝ)
    let varianceScore : ℝ :=
      if 1 < hist.length then
        max (30 - npStd hist / (((npMean hist : ℚ) : ℝ) + 1) * 10) 0
      else 15
    min (dataScore + velocityScore + varianceScore) 100

/-! ## Helper lemmas -/

/-- If some keyword of the list matches, the keyword loop returns a match. -/
theorem kwLoop_isSome_of_mem (d : String) (ks : List String)
    (h : ∃ kw ∈ ks, strContains d (lowerStr kw) = true) :
    ∃ kw, kwLoop d ks = some kw := by
  induction ks with
  | nil => obtain ⟨kw, hmem, _⟩ := h; exact absurd hmem (List.not_mem_nil kw)
  | cons a rest ih =>
      by_cases ha : strContains d (lowerStr a) = true
      · exact ⟨a, by simp [kwLoop, ha]⟩
      · obtain ⟨kw, hmem, hc⟩ := h
        rcases List.mem_cons.mp hmem with rfl | hmem'
        · exact absurd hc ha
        · obtain ⟨kw', hkw'⟩ := ih ⟨kw, hmem', hc⟩
          exact ⟨kw', by simp [kwLoop, ha, hkw']⟩

/-! ## Claim theorems -/

/-- Claim C1: `get_exclusion_reason` evaluates its rules in strict
precedence order with first-match-wins short-circuit — (1) explicit
item-id exclusion, (2) keyword match against custom keywords then
built-in keywords, (3) dated-item rule, (4) negative margin, (5) zero
sales, else no exclusion; in particular an item whose description
matches a custom keyword and whose margin is negative gets the
keyword-based reason, never the margin-based one. -/
theorem exclusion_precedence :
    (∀ desc itemNum margin sold ckw cit cy cm, itemNum ∈ cit →
      get_exclusion_reason desc itemNum margin sold ckw cit cy cm = some .manual) ∧
    (∀ desc itemNum margin sold ckw cit cy cm kw, itemNum ∉ cit →
      kwLoop (lowerStr desc) (ckw ++ EXCLUDE_KEYWORDS) = some kw →
      get_exclusion_reason desc itemNum margin sold ckw cit cy cm =
        some (.serviceKeyword kw)) ∧
    (∀ desc itemNum margin sold ckw cit cy cm r, itemNum ∉ cit →
      kwLoop (lowerStr desc) (ckw ++ EXCLUDE_KEYWORDS) = none →
      datedLoop (lowerStr desc) desc cy cm DATED_KEYWORDS = some r →
      get_exclusion_reason desc itemNum margin sold ckw cit cy cm = some r) ∧
    (∀ desc itemNum margin sold ckw cit cy cm, itemNum ∉ cit →
      kwLoop (lowerStr desc) (ckw ++ EXCLUDE_KEYWORDS) = none →
      datedLoop (lowerStr desc) desc cy cm DATED_KEYWORDS = none →
      margin < 0 →
      get_exclusion_reason desc itemNum margin sold ckw cit cy cm =
        some (.negativeMargin margin)) ∧
    (∀ desc itemNum margin sold ckw cit cy cm, itemNum ∉ cit →
      kwLoop (lowerStr desc) (ckw ++ EXCLUDE_KEYWORDS) = none →
      datedLoop (lowerStr desc) desc cy cm DATED_KEYWORDS = none →
      ¬ margin < 0 → sold = 0 →
      get_exclusion_reason desc itemNum margin sold ckw cit cy cm = some .zeroSales) ∧
    (∀ desc itemNum margin sold ckw cit cy cm, itemNum ∉ cit →
      kwLoop (lowerStr desc) (ckw ++ EXCLUDE_KEYWORDS) = none →
      datedLoop (lowerStr desc) desc cy cm DATED_KEYWORDS = none →
      ¬ margin < 0 → sold ≠ 0 →
      get_exclusion_reason desc itemNum margin sold ckw cit cy cm = none) ∧
    (∀ desc itemNum margin sold ckw cit cy cm, itemNum ∉ cit →
      (∃ kw ∈ ckw, strContains (lowerStr desc) (lowerStr kw) = true) →
      margin < 0 →
      ∃ kw, get_exclusion_reason desc itemNum margin sold ckw cit cy cm =
        some (.serviceKeyword kw)) := by
  refine ⟨?_, ?_, ?_, ?_, ?_, ?_, ?_⟩
  · intro desc itemNum margin sold ckw cit cy cm hmem
    simp [get_exclusion_reason, hmem]
  · intro desc itemNum margin sold ckw cit cy cm kw hnot hkw
    simp [get_exclusion_reason, hnot, hkw]
  · intro desc itemNum margin sold ckw cit cy cm r hnot hkw hd
    simp [get_exclusion_reason, hnot, hkw, hd]
  · intro desc itemNum margin sold ckw cit cy cm hnot hkw hd hm
    simp [get_exclusion_reason, hnot, hkw, hd, hm]
  · intro desc itemNum margin sold ckw cit cy cm hnot hkw hd hm hs
    simp [get_exclusion_reason, hnot, hkw, hd, hm, hs]
  · intro desc itemNum margin sold ckw cit cy cm hnot hkw hd hm hs
    simp [get_exclusion_reason, hnot, hkw, hd, hm, hs]
  · intro desc itemNum margin sold ckw cit cy cm hnot hex hm
    obtain ⟨kw, hmem, hc⟩ := hex
    obtain ⟨kw', hkw'⟩ := kwLoop_isSome_of_mem (lowerStr desc) (ckw ++ EXCLUDE_KEYWORDS)
      ⟨kw, List.mem_append_left _ hmem, hc⟩
    exact ⟨kw', by simp [get_exclusion_reason, hnot, hkw']⟩

/-- Witness for C1: the description matches the custom keyword `sale`
while the margin is negative; the reason returned is the keyword one. -/
theorem exclusion_precedence_witness :
    ∃ kw, get_exclusion_reason "Mug SALE" "1" (-5) 3 ["sale"] [] 2026 5 =
      some (.serviceKeyword kw) :=
  exclusion_precedence.2.2.2.2.2.2 "Mug SALE" "1" (-5) 3 ["sale"] [] 2026 5
    (by decide) ⟨"sale", by decide, by decide⟩ (by norm_num)

/-- Without a year match the dated loop never excludes. -/
theorem datedLoop_none_of_no_year (dl desc : String) (cy cm : Nat) (ks : List String)
    (h : findYear desc = none) : datedLoop dl desc cy cm ks = none := by
  induction ks with
  | nil => rfl
  | cons a rest ih => by_cases ha : strContains dl a = true <;> simp [datedLoop, ha, h, ih]

/-- If the year fails both the stale check and the season-passed check,
the dated loop never excludes. -/
theorem datedLoop_none_of_fresh (dl desc : String) (cy cm : Nat) (ks : List String) (y : Nat)
    (h : findYear desc = some y) (h1 : ¬ y < cy) (h2 : ¬ (y = cy ∧ 3 < cm)) :
    datedLoop dl desc cy cm ks = none := by
  induction ks with
  | nil => rfl
  | cons a rest ih =>
      by_cases ha : strContains dl a = true <;> simp [datedLoop, ha, h, h1, h2, ih]

/-- If some dated keyword matches and the extracted year is stale, the
dated loop reports the stale reason. -/
theorem datedLoop_stale (dl desc : String) (cy cm : Nat) (ks : List String) (y : Nat)
    (hk : ∃ kw ∈ ks, strContains dl kw = true)
    (h : findYear desc = some y) (h1 : y < cy) :
    datedLoop dl desc cy cm ks = some (.datedItem y cy) := by
  induction ks with
  | nil => obtain ⟨kw, hmem, _⟩ := hk; exact absurd hmem (List.not_mem_nil kw)
  | cons a rest ih =>
      by_cases ha : strContains dl a = true
      · simp [datedLoop, ha, h, h1]
      · obtain ⟨kw, hmem, hc⟩ := hk
        rcases List.mem_cons.mp hmem with rfl | hmem'
        · exact absurd hc ha
        · simpa [datedLoop, ha] using ih ⟨kw, hmem', hc⟩

/-- If some dated keyword matches and the extracted year equals the
current year after the month-3 cutoff, the dated loop reports season
passed. -/
theorem datedLoop_season (dl desc : String) (cy cm : Nat) (ks : List String)
    (hk : ∃ kw ∈ ks, strContains dl kw = true)
    (h : findYear desc = some cy) (h2 : 3 < cm) :
    datedLoop dl desc cy cm ks = some (.seasonPassed cy) := by
  induction ks with
  | nil => obtain ⟨kw, hmem, _⟩ := hk; exact absurd hmem (List.not_mem_nil kw)
  | cons a rest ih =>
      by_cases ha : strContains dl a = true
      · simp [datedLoop, ha, h, h2]
      · obtain ⟨kw, hmem, hc⟩ := hk
        rcases List.mem_cons.mp hmem with rfl | hmem'
        · exact absurd hc ha
        · simpa [datedLoop, ha] using ih ⟨kw, hmem', hc⟩

/-- Counterexample to claim C2 as stated: `Calendar 1999` contains the
dated keyword `calendar` and the 4-digit year token `1999`, strictly
before the current year 2026, yet `get_exclusion_reason` does not
exclude it — the code's pattern `\b(20\d{2})\b` only recognises years
2000–2099. -/
theorem dated_rule_counterexample :
    strContains (lowerStr "Calendar 1999") "calendar" = true ∧
    strContains "Calendar 1999" "1999" = true ∧
    1999 < 2026 ∧
    findYear "Calendar 1999" = none ∧
    get_exclusion_reason "Calendar 1999" "1" 5 10 [] [] 2026 1 = none := by
  refine ⟨by decide, by decide, by decide, by decide, ?_⟩
  decide

/-- Claim C2 (amended: the year token must be of the form `20\d{2}`,
i.e. 2000–2099, per the code's regex): when no higher-precedence rule
fires and a dated keyword is present, a year strictly before the current
year yields the stale reason; a year equal to the current year in a month
past 3 yields season passed; no parseable year, or a current-or-future
year within the cutoff, yields no exclusion from this rule; and an
extracted year equal to `cy - 1` is excluded regardless of the month. -/
theorem dated_rule_amended :
    (∀ desc itemNum margin sold ckw cit cy cm y, itemNum ∉ cit →
      kwLoop (lowerStr desc) (ckw ++ EXCLUDE_KEYWORDS) = none →
      (∃ kw ∈ DATED_KEYWORDS, strContains (lowerStr desc) kw = true) →
      findYear desc = some y → y < cy →
      get_exclusion_reason desc itemNum margin sold ckw cit cy cm =
        some (.datedItem y cy)) ∧
    (∀ desc itemNum margin sold ckw cit cy cm, itemNum ∉ cit →
      kwLoop (lowerStr desc) (ckw ++ EXCLUDE_KEYWORDS) = none →
      (∃ kw ∈ DATED_KEYWORDS, strContains (lowerStr desc) kw = true) →
      findYear desc = some cy → 3 < cm →
      get_exclusion_reason desc itemNum margin sold ckw cit cy cm =
        some (.seasonPassed cy)) ∧
    (∀ desc cy cm, findYear desc = none →
      datedLoop (lowerStr desc) desc cy cm DATED_KEYWORDS = none) ∧
    (∀ desc cy cm y, findYear desc = some y → cy ≤ y → (y = cy → cm ≤ 3) →
      datedLoop (lowerStr desc) desc cy cm DATED_KEYWORDS = none) ∧
    (∀ desc itemNum margin sold ckw cit cy cm, itemNum ∉ cit →
      kwLoop (lowerStr desc) (ckw ++ EXCLUDE_KEYWORDS) = none →
      (∃ kw ∈ DATED_KEYWORDS, strContains (lowerStr desc) kw = true) →
      findYear desc = some (cy - 1) → 0 < cy →
      get_exclusion_reason desc itemNum margin sold ckw cit cy cm =
        some (.datedItem (cy - 1) cy)) := by
  have main : ∀ desc itemNum margin sold (ckw cit : List String) cy cm y,
      itemNum ∉ cit →
      kwLoop (lowerStr desc) (ckw ++ EXCLUDE_KEYWORDS) = none →
      (∃ kw ∈ DATED_KEYWORDS, strContains (lowerStr desc) kw = true) →
      findYear desc = some y → y < cy →
      get_exclusion_reason desc itemNum margin sold ckw cit cy cm =
        some (.datedItem y cy) := by
    intro desc itemNum margin sold ckw cit cy cm y hnot hkw hk hy h1
    have hd := datedLoop_stale (lowerStr desc) desc cy cm DATED_KEYWORDS y hk hy h1
    simp [get_exclusion_reason, hnot, hkw, hd]
  refine ⟨main, ?_, ?_, ?_, ?_⟩
  · intro desc itemNum margin sold ckw cit cy cm hnot hkw hk hy h2
    have hd := datedLoop_season (lowerStr desc) desc cy cm DATED_KEYWORDS hk hy h2
    simp [get_exclusion_reason, hnot, hkw, hd]
  · intro desc cy cm h
    exact datedLoop_none_of_no_year (lowerStr desc) desc cy cm DATED_KEYWORDS h
  · intro desc cy cm y hy hle hcut
    refine datedLoop_none_of_fresh (lowerStr desc) desc cy cm DATED_KEYWORDS y hy
      (Nat.not_lt.mpr hle) ?_
    rintro ⟨rfl, h3⟩
    exact absurd h3 (Nat.not_lt.mpr (hcut rfl))
  · intro desc itemNum margin sold ckw cit cy cm hnot hkw hk hy hpos
    exact main desc itemNum margin sold ckw cit cy cm (cy - 1) hnot hkw hk hy
      (Nat.sub_lt hpos Nat.one_pos)

/-- Witness for the amended C2: a 2025 calendar is excluded as stale
against current year 2026 in month 1 (before the cutoff). -/
theorem dated_rule_amended_witness :
    get_exclusion_reason "2025 Calendar" "1" 5 10 [] [] 2026 1 =
      some (.datedItem 2025 2026) :=
  dated_rule_amended.1 "2025 Calendar" "1" 5 10 [] [] 2026 1 2025
    (by decide) (by decide) ⟨"calendar", by decide, by decide⟩ (by decide) (by decide)

/-- Concrete evaluation: ten units a week over one observed week. -/
theorem avg_weekly_ten : avg_weekly 10 1 = 10 := by
  norm_num [avg_weekly]

/-- Concrete evaluation of the forecast in the C3 scenario. -/
theorem forecast_qty_ten : forecast_qty 10 1 4 1 1 = 40 := by
  norm_num [forecast_qty, avg_weekly]

/-- Python `round(46.0)` is 46. -/
theorem pythonRound_fortysix : pythonRound 46 = 46 := by
  simp only [pythonRound]
  norm_num

/-- Concrete evaluation of the suggested order in the C3 scenario. -/
theorem suggested_order_forty : suggested_order 40 15 = 46 := by
  have h1 : (40 : ℚ) + safety_stock 40 15 = 46 := by norm_num [safety_stock]
  simp only [suggested_order]
  rw [h1, pythonRound_fortysix]
  norm_num

/-- Claim C3: for every item the forecast quantity is average weekly
demand × reorder window × seasonal factor × event (cruise) multiplier,
safety stock is forecast × (safety_stock_pct/100), and the suggested
order is max(1, round(forecast + safety)); in the scenario with window 4,
safety 15 %, average weekly demand 10 and both multipliers 1.0 the
forecast is 40, the safety stock 6 and the suggested order 46. -/
theorem reorder_formulas :
    (∀ (classify : ℤ → ℚ → String) (desc itemNum : String) (margin : ℚ) (sold : ℤ)
      (ckw cit : List String) (aw rw pct s c : ℚ) (cy cm : Nat),
      (buildRowWith classify desc itemNum margin sold ckw cit aw rw pct s c cy cm).forecastQty
        = avg_weekly sold aw * rw * s * c ∧
      safety_stock (forecast_qty sold aw rw s c) pct
        = forecast_qty sold aw rw s c * (pct / 100) ∧
      (buildRowWith classify desc itemNum margin sold ckw cit aw rw pct s c cy cm).suggestedOrder
        = max 1 (pythonRound (forecast_qty sold aw rw s c
            + forecast_qty sold aw rw s c * (pct / 100)))) ∧
    (avg_weekly 10 1 = 10 ∧ forecast_qty 10 1 4 1 1 = 40 ∧ safety_stock 40 15 = 6 ∧
      suggested_order 40 15 = 46 ∧
      (build_reorder_row "widget" "1" 5 10 [] [] 1 4 15 1 1 2026 1).forecastQty = 40 ∧
      (build_reorder_row "widget" "1" 5 10 [] [] 1 4 15 1 1 2026 1).suggestedOrder = 46) := by
  refine ⟨fun classify desc itemNum margin sold ckw cit aw rw pct s c cy cm =>
    ⟨rfl, rfl, rfl⟩, avg_weekly_ten, forecast_qty_ten, by norm_num [safety_stock], ?_, ?_, ?_⟩
  · exact suggested_order_forty
  · show forecast_qty 10 1 4 1 1 = 40
    exact forecast_qty_ten
  · show suggested_order (forecast_qty 10 1 4 1 1) 15 = 46
    rw [forecast_qty_ten]
    exact suggested_order_forty

/-- Claim C5: priority is assigned after exclusion — an excluded item is
always `EXCLUDED` regardless of the suggested quantity (which is still
computed), otherwise `URGENT` iff suggested ≥ 8, `WARNING` iff
3 ≤ suggested < 8, `OK` otherwise. -/
theorem priority_assignment :
    ∀ (desc itemNum : String) (margin : ℚ) (sold : ℤ) (ckw cit : List String)
      (aw rw pct s c : ℚ) (cy cm : Nat),
      ((build_reorder_row desc itemNum margin sold ckw cit aw rw pct s c cy cm).exclusionReason.isSome = true →
        (build_reorder_row desc itemNum margin sold ckw cit aw rw pct s c cy cm).priority = "❌ EXCLUDED") ∧
      ((build_reorder_row desc itemNum margin sold ckw cit aw rw pct s c cy cm).exclusionReason = none →
        8 ≤ (build_reorder_row desc itemNum margin sold ckw cit aw rw pct s c cy cm).suggestedOrder →
        (build_reorder_row desc itemNum margin sold ckw cit aw rw pct s c cy cm).priority = "🚨 URGENT") ∧
      ((build_reorder_row desc itemNum margin sold ckw cit aw rw pct s c cy cm).exclusionReason = none →
        3 ≤ (build_reorder_row desc itemNum margin sold ckw cit aw rw pct s c cy cm).suggestedOrder →
        (build_reorder_row desc itemNum margin sold ckw cit aw rw pct s c cy cm).suggestedOrder < 8 →
        (build_reorder_row desc itemNum margin sold ckw cit aw rw pct s c cy cm).priority = "⚠️ WARNING") ∧
      ((build_reorder_row desc itemNum margin sold ckw cit aw rw pct s c cy cm).exclusionReason = none →
        (build_reorder_row desc itemNum margin sold ckw cit aw rw pct s c cy cm).suggestedOrder < 3 →
        (build_reorder_row desc itemNum margin sold ckw cit aw rw pct s c cy cm).priority = "✅ OK") ∧
      (build_reorder_row desc itemNum margin sold ckw cit aw rw pct s c cy cm).suggestedOrder =
        suggested_order (forecast_qty sold aw rw s c) pct := by
  intro desc itemNum margin sold ckw cit aw rw pct s c cy cm
  refine ⟨?_, ?_, ?_, ?_, rfl⟩
  · intro h
    simp only [build_reorder_row, buildRowWith] at h ⊢
    simp [priority_of, h]
  · intro hr h8
    simp only [build_reorder_row, buildRowWith] at hr h8 ⊢
    simp [priority_of, hr, h8]
  · intro hr h3 h8
    simp only [build_reorder_row, buildRowWith] at hr h3 h8 ⊢
    simp [priority_of, hr, h3, not_le.mpr h8]
  · intro hr h3
    simp only [build_reorder_row, buildRowWith] at hr h3 ⊢
    have h8 : ¬ (8:ℤ) ≤ suggested_order (forecast_qty sold aw rw s c) pct :=
      not_le.mpr (lt_trans h3 (by norm_num))
    simp [priority_of, hr, h8, not_le.mpr h3]

/-- Witness for C5: a non-excluded item with suggested order 46 is
classified `URGENT`. -/
theorem priority_assignment_witness :
    (build_reorder_row "widget" "1" 5 10 [] [] 1 4 15 1 1 2026 1).priority = "🚨 URGENT" := by
  apply (priority_assignment "widget" "1" 5 10 [] [] 1 4 15 1 1 2026 1).2.1
  · show get_exclusion_reason "widget" "1" 5 10 [] [] 2026 1 = none
    decide
  · show 8 ≤ suggested_order (forecast_qty 10 1 4 1 1) 15
    rw [forecast_qty_ten, suggested_order_forty]
    norm_num

/-- Claim C9 (noninterference): the velocity classifier influences only
the `Velocity` field — replacing `classify_velocity` by any other
classifier leaves forecast quantity, suggested order and priority
unchanged, and the suggested order depends only on units sold, observed
weeks, reorder window, safety percentage, seasonal index and cruise
multiplier. -/
theorem velocity_noninterference :
    ∀ (vf vg : ℤ → ℚ → String) (desc itemNum : String) (margin : ℚ) (sold : ℤ)
      (ckw cit : List String) (aw rw pct s c : ℚ) (cy cm : Nat),
      (buildRowWith vf desc itemNum margin sold ckw cit aw rw pct s c cy cm).forecastQty =
        (buildRowWith vg desc itemNum margin sold ckw cit aw rw pct s c cy cm).forecastQty ∧
      (buildRowWith vf desc itemNum margin sold ckw cit aw rw pct s c cy cm).suggestedOrder =
        (buildRowWith vg desc itemNum margin sold ckw cit aw rw pct s c cy cm).suggestedOrder ∧
      (buildRowWith vf desc itemNum margin sold ckw cit aw rw pct s c cy cm).priority =
        (buildRowWith vg desc itemNum margin sold ckw cit aw rw pct s c cy cm).priority ∧
      (buildRowWith vf desc itemNum margin sold ckw cit aw rw pct s c cy cm).velocity = vf sold aw ∧
      build_reorder_row desc itemNum margin sold ckw cit aw rw pct s c cy cm =
        buildRowWith classify_velocity desc itemNum margin sold ckw cit aw rw pct s c cy cm ∧
      (∀ (desc2 itemNum2 : String) (margin2 : ℚ) (ckw2 cit2 : List String) (cy2 cm2 : Nat),
        (buildRowWith vf desc2 itemNum2 margin2 sold ckw2 cit2 aw rw pct s c cy2 cm2).suggestedOrder =
          (buildRowWith vg desc itemNum margin sold ckw cit aw rw pct s c cy cm).suggestedOrder) :=
  fun _ _ _ _ _ _ _ _ _ _ _ _ _ _ _ =>
    ⟨rfl, rfl, rfl, rfl, rfl, fun _ _ _ _ _ _ _ => rfl⟩

/-- Claim C10: every per-week rate divides by `max(observed_weeks, 1)`,
which is strictly positive for every input, so the average weekly demand
is the genuine quotient (it multiplies back to the numerator) and the
velocity class is always one of the four defined categories. -/
theorem division_safety :
    ∀ (aw : ℚ) (sold : ℤ),
      0 < max aw 1 ∧
      avg_weekly sold aw * max aw 1 = (sold : ℚ) ∧
      classify_velocity sold aw ∈ ["🔥 Fast", "⚡ Medium", "🐢 Slow", "💀 Dead"] := by
  intro aw sold
  have h1 : (0:ℚ) < max aw 1 := lt_of_lt_of_le one_pos (le_max_right aw 1)
  refine ⟨h1, ?_, ?_⟩
  · exact div_mul_cancel₀ _ (ne_of_gt h1)
  · unfold classify_velocity
    dsimp only
    split_ifs <;> simp

/-- Claim C7: any history shorter than the window makes both SMA and WMA
return the arithmetic mean of the full history (the short-history
fallback branch of both methods). -/
theorem short_history_mean :
    ∀ (w : Nat) (hist : List ℚ) (p : Nat), hist.length < w →
      sma_forecast w hist p = npMean hist ∧ wma_forecast w hist p = npMean hist := by
  intro w hist p h
  exact ⟨by simp [sma_forecast, h], by simp [wma_forecast, h]⟩

/-- Witness for C7 at the two-element history `[2, 7]` with window 3. -/
theorem short_history_mean_witness :
    sma_forecast 3 [2, 7] 1 = npMean [2, 7] ∧ wma_forecast 3 [2, 7] 1 = npMean [2, 7] :=
  short_history_mean 3 [2, 7] 1 (by norm_num)

/-- Exponential smoothing leaves a constant state fixed. -/
theorem foldl_smooth_const (α c : ℚ) : ∀ (m : Nat),
    (List.replicate m c).foldl (fun s v => α * v + (1 - α) * s) c = c := by
  intro m
  induction m with
  | zero => rfl
  | succ k ih =>
      have h : α * c + (1 - α) * c = c := by ring
      simp only [List.replicate_succ, List.foldl_cons]
      rw [h, ih]

/-- Holt's level/trend update leaves the state `(c, 0)` fixed. -/
theorem foldl_holt_const (α β c : ℚ) : ∀ (m : Nat),
    (List.replicate m c).foldl (holtStep α β) (c, 0) = (c, 0) := by
  intro m
  induction m with
  | zero => rfl
  | succ k ih =>
      have h : holtStep α β (c, 0) c = (c, 0) := by
        simp only [holtStep, Prod.mk.injEq]
        constructor <;> ring
      simp only [List.replicate_succ, List.foldl_cons]
      rw [h, ih]

/-- Mean of three equal values. -/
theorem npMean_replicate_three (c : ℚ) : npMean (List.replicate 3 c) = c := by
  simp [npMean, List.sum_replicate, nsmul_eq_mul]
  rw [div_eq_iff (by norm_num : (3:ℚ) ≠ 0)]
  ring

/-- The last three of at least three equal values. -/
theorem lastN_replicate (k : Nat) (c : ℚ) :
    lastN 3 (List.replicate (k + 3) c) = List.replicate 3 c := by
  rw [lastN, List.length_replicate, List.drop_replicate]
  congr 1
  omega

/-- Claim C8: on a constant nonnegative history of length at least the
window, each of SMA, WMA, exponential smoothing and Holt returns the
constant itself (Holt's trend stays 0 for every horizon). -/
theorem constant_history_fixed_point :
    ∀ (c : ℚ) (n p : Nat), 0 ≤ c → 3 ≤ n →
      sma_forecast 3 (List.replicate n c) p = c ∧
      wma_forecast 3 (List.replicate n c) p = c ∧
      exp_smooth_forecast 0.3 (List.replicate n c) p = c ∧
      holt_forecast 0.3 0.1 (List.replicate n c) p = c := by
  intro c n p hc hn
  obtain ⟨k, rfl⟩ : ∃ k, n = k + 3 := ⟨n - 3, by omega⟩
  have hnot : ¬ (List.replicate (k + 3) c).length < 3 := by
    rw [List.length_replicate]; omega
  refine ⟨?_, ?_, ?_, ?_⟩
  · simp only [sma_forecast]
    rw [if_neg hnot, lastN_replicate, npMean_replicate_three]
  · simp only [wma_forecast]
    rw [if_neg hnot, lastN_replicate]
    have hr : List.range (List.replicate 3 c).length = [0, 1, 2] := rfl
    rw [hr]
    simp only [List.map_cons, List.map_nil, List.zipWith, List.sum_cons, List.sum_nil]
    rw [div_eq_iff (by norm_num)]
    push_cast
    ring
  · show (List.replicate (k + 2) c).foldl (fun s v => 0.3 * v + (1 - 0.3) * s) c = c
    exact foldl_smooth_const 0.3 c (k + 2)
  · have hh : (List.replicate (k + 2) c).foldl (holtStep 0.3 0.1) (c, c - c) = (c, 0) := by
      rw [sub_self]
      exact foldl_holt_const 0.3 0.1 c (k + 2)
    show max 0 (((List.replicate (k + 2) c).foldl (holtStep 0.3 0.1) (c, c - c)).1
        + (p : ℚ) * ((List.replicate (k + 2) c).foldl (holtStep 0.3 0.1) (c, c - c)).2) = c
    rw [hh]
    simpa using hc

/-- Witness for C8 at the constant history `[5, 5, 5, 5]`. -/
theorem constant_history_fixed_point_witness :
    sma_forecast 3 (List.replicate 4 (5:ℚ)) 1 = 5 ∧
    wma_forecast 3 (List.replicate 4 (5:ℚ)) 1 = 5 ∧
    exp_smooth_forecast 0.3 (List.replicate 4 (5:ℚ)) 1 = 5 ∧
    holt_forecast 0.3 0.1 (List.replicate 4 (5:ℚ)) 1 = 5 :=
  constant_history_fixed_point 5 4 1 (by norm_num) (by norm_num)

/-- Claim C4: the ensemble is the weighted sum of the four method outputs
using exactly the weight row selected by the velocity category (Fast
Mover 0.15/0.30/0.35/0.20, Medium Mover 0.25 each, anything else the
slow row 0.40/0.30/0.20/0.10, never failing); every row sums to 1, and
the result carries all four method values plus `ensemble` and
`recommended` equal to the ensemble. -/
theorem ensemble_weighted_sum :
    ∀ (hist : List ℚ) (cat : String) (p : Nat),
      (ensemble_forecast hist cat p).sma = sma_forecast 3 hist p ∧
      (ensemble_forecast hist cat p).wma = wma_forecast 3 hist p ∧
      (ensemble_forecast hist cat p).exp_smooth = exp_smooth_forecast 0.3 hist p ∧
      (ensemble_forecast hist cat p).holt = holt_forecast 0.3 0.1 hist p ∧
      (ensemble_forecast hist cat p).ensemble =
        sma_forecast 3 hist p * (weightsFor cat).sma
          + wma_forecast 3 hist p * (weightsFor cat).wma
          + exp_smooth_forecast 0.3 hist p * (weightsFor cat).exp_smooth
          + holt_forecast 0.3 0.1 hist p * (weightsFor cat).holt ∧
      (ensemble_forecast hist cat p).recommended = (ensemble_forecast hist cat p).ensemble ∧
      (weightsFor cat).sma + (weightsFor cat).wma
        + (weightsFor cat).exp_smooth + (weightsFor cat).holt = 1 ∧
      (cat = "Fast Mover" → weightsFor cat = ⟨0.15, 0.30, 0.35, 0.20⟩) ∧
      (cat = "Medium Mover" → weightsFor cat = ⟨0.25, 0.25, 0.25, 0.25⟩) ∧
      (cat ≠ "Fast Mover" → cat ≠ "Medium Mover" →
        weightsFor cat = ⟨0.40, 0.30, 0.20, 0.10⟩) := by
  intro hist cat p
  refine ⟨rfl, rfl, rfl, rfl, rfl, rfl, ?_, ?_, ?_, ?_⟩
  · unfold weightsFor
    split_ifs <;> norm_num
  · intro h
    subst h
    rfl
  · intro h
    subst h
    rfl
  · intro hf hm
    unfold weightsFor
    rw [if_neg hf, if_neg hm]

/-- Witness for C4: an unknown category falls back to the slow row, and
the recommendation equals the ensemble. -/
theorem ensemble_weighted_sum_witness :
    weightsFor "Unknown" = ⟨0.40, 0.30, 0.20, 0.10⟩ ∧
    (ensemble_forecast [1, 2] "Unknown" 1).recommended =
      (ensemble_forecast [1, 2] "Unknown" 1).ensemble :=
  ⟨(ensemble_weighted_sum [1, 2] "Unknown" 1).2.2.2.2.2.2.2.2.2
      (by decide) (by decide),
   (ensemble_weighted_sum [1, 2] "Unknown" 1).2.2.2.2.2.1⟩

/-- Claim C6: the confidence score is always within [0, 100], equals
exactly 50 for histories of fewer than 3 observations, and otherwise is
data score (min(len/12·40, 40)) plus the velocity lookup (Fast 30,
Medium 25, Slow 15, Very Slow 10, default 15) plus the variance score
(max(30 − cv·10, 0), cv = std/(mean+1)), capped at 100. -/
theorem confidence_range :
    ∀ (hist : List ℚ) (cat : String),
      (0 ≤ calculate_confidence hist cat ∧ calculate_confidence hist cat ≤ 100) ∧
      (hist.length < 3 → calculate_confidence hist cat = 50) ∧
      (3 ≤ hist.length → calculate_confidence hist cat =
        min (min ((hist.length : ℝ) / 12 * 40) 40 + ((velocity_score cat : ℚ) : ℝ)
          + max (30 - npStd hist / (((npMean hist : ℚ) : ℝ) + 1) * 10) 0) 100) ∧
      velocity_score "Fast Mover" = 30 ∧ velocity_score "Medium Mover" = 25 ∧
      velocity_score "Slow Mover" = 15 ∧ velocity_score "Very Slow" = 10 ∧
      (cat ≠ "Fast Mover" → cat ≠ "Medium Mover" → cat ≠ "Slow Mover" →
        cat ≠ "Very Slow" → velocity_score cat = 15) := by
  intro hist cat
  have hvs : (0 : ℚ) ≤ velocity_score cat := by
    unfold velocity_score
    split_ifs <;> norm_num
  refine ⟨?_, ?_, ?_, rfl, rfl, rfl, rfl, ?_⟩
  · by_cases hl : hist.length < 3
    · rw [calculate_confidence, if_pos hl]
      constructor <;> norm_num
    · rw [calculate_confidence, if_neg hl]
      have h1 : 1 < hist.length := by omega
      rw [if_pos h1]
      have hD0 : (0:ℝ) ≤ min ((hist.length : ℝ) / 12 * 40) 40 :=
        le_min (by positivity) (by norm_num)
      have hV0 : (0:ℝ) ≤ ((velocity_score cat : ℚ) : ℝ) := by exact_mod_cast hvs
      have hW0 : (0:ℝ) ≤ max (30 - npStd hist / (((npMean hist : ℚ) : ℝ) + 1) * 10) 0 :=
        le_max_right _ _
      exact ⟨le_min (by linarith) (by norm_num), min_le_right _ _⟩
  · intro hl
    rw [calculate_confidence, if_pos hl]
  · intro h3
    have hl : ¬ hist.length < 3 := by omega
    have h1 : 1 < hist.length := by omega
    rw [calculate_confidence, if_neg hl]
    dsimp only
    rw [if_pos h1]
  · intro h1 h2 h3 h4
    unfold velocity_score
    rw [if_neg h1, if_neg h2, if_neg h3, if_neg h4]

/-- Witness for C6: the empty history scores exactly 50, and a concrete
three-element history stays within the bounds. -/
theorem confidence_range_witness :
    calculate_confidence [] "Fast Mover" = 50 ∧
    (0 ≤ calculate_confidence [4, 5, 6] "Medium Mover" ∧
      calculate_confidence [4, 5, 6] "Medium Mover" ≤ 100) :=
  ⟨(confidence_range [] "Fast Mover").2.1 (by norm_num),
   (confidence_range [4, 5, 6] "Medium Mover").1⟩
